import Mathlib

/-
  Verification development for the lazorkit-demo repository.

  The embedding models the transfer-submission handler of
  src/components/SendUSDC.tsx, the balance-refresh routine of the
  WalletInfo component, and the truncateAddress utility of
  src/lib/constants.ts.  JavaScript Number arithmetic is idealized as
  exact rational arithmetic (the concrete inputs appearing in the claims
  round identically under binary64); JavaScript strings are modelled as
  Lean strings, with trimming implemented directly so that all
  definitions reduce in the kernel.  External library behaviour
  (PublicKey parsing, associated-token-address derivation, RPC queries,
  the signing call) is supplied through an explicit environment record.
-/

namespace Lazorkit

/-- Whitespace test used by the model of the JavaScript trim method. -/
def isWhite (c : Char) : Bool :=
  c = ' ' || c = '\t' || c = '\n' || c = '\r'

/-- Trimming on character lists: drop whitespace from both ends. -/
def trimList (l : List Char) : List Char :=
  ((l.dropWhile isWhite).reverse.dropWhile isWhite).reverse

/-- Model of the JavaScript string trim method. -/
def jsTrim (s : String) : String :=
  String.mk (trimList s.toList)

/-- Value of a most-significant-first decimal digit list. -/
def digitsVal (l : List Char) : Nat :=
  l.foldl (fun a c => a * 10 + (c.toNat - 48)) 0

/-- Value of an optional exponent suffix after the mantissa; an
exponent marker with no following digits is ignored, as in parseFloat. -/
def expVal (r : List Char) : ℤ :=
  match r with
  | '-' :: ds =>
      if (ds.takeWhile Char.isDigit).isEmpty then 0
      else -(digitsVal (ds.takeWhile Char.isDigit) : ℤ)
  | '+' :: ds =>
      if (ds.takeWhile Char.isDigit).isEmpty then 0
      else (digitsVal (ds.takeWhile Char.isDigit) : ℤ)
  | ds =>
      if (ds.takeWhile Char.isDigit).isEmpty then 0
      else (digitsVal (ds.takeWhile Char.isDigit) : ℤ)

/-- Exact rational value of a parsed decimal literal
sign * intDigits.fracDigits * 10 ^ e, built with mkRat so that the
definition evaluates inside the kernel (the ring operations on ℚ are
irreducible). -/
def decValue (sign : ℤ) (intDigits fracDigits : List Char) (e : ℤ) : ℚ :=
  let mant : ℤ :=
    sign * (digitsVal intDigits * 10 ^ fracDigits.length + digitsVal fracDigits : ℕ)
  mkRat (mant * 10 ^ e.toNat) (10 ^ (fracDigits.length + (-e).toNat))

/-- Model of JavaScript parseFloat on an already-trimmed string, with
Number idealized as an exact rational; none models a NaN result.  The
numeric prefix of the string is parsed, as parseFloat does. -/
def parseFloatQ (s : String) : Option ℚ :=
  let cs := s.toList
  let signAndRest : ℤ × List Char :=
    match cs with
    | '-' :: r => (-1, r)
    | '+' :: r => (1, r)
    | r => (1, r)
  let cs1 := signAndRest.2
  let intPart := cs1.takeWhile Char.isDigit
  let rest1 := cs1.dropWhile Char.isDigit
  let fracAndRest : List Char × List Char :=
    match rest1 with
    | '.' :: r => (r.takeWhile Char.isDigit, r.dropWhile Char.isDigit)
    | r => ([], r)
  let fracPart := fracAndRest.1
  if intPart.isEmpty && fracPart.isEmpty then none
  else
    let e : ℤ :=
      match fracAndRest.2 with
      | 'e' :: r => expVal r
      | 'E' :: r => expVal r
      | _ => 0
    some (decValue signAndRest.1 intPart fracPart e)

/-- Nearest-integer rounding of the fraction n / d with halves rounded
up, computed by floor division; this is Math.round applied to n / d. -/
def roundDiv (n : ℤ) (d : ℕ) : ℤ :=
  Int.fdiv (2 * n + d) (2 * d)

/-- Token precision constant from SendUSDC.tsx line 30. -/
def USDC_DECIMALS : Nat := 6

/-- Base-unit conversion from SendUSDC.tsx lines 91-93:
BigInt(Math.round(amountNum * Math.pow(10, USDC_DECIMALS))), computed on
the numerator and denominator of the exact rational amount.  The lemma
toBaseUnits_eq_floor identifies it with the floor characterization of
nearest-integer rounding on ℚ. -/
def toBaseUnits (amountNum : ℚ) : ℤ :=
  roundDiv (amountNum.num * 10 ^ USDC_DECIMALS) amountNum.den

/-- Devnet USDC mint address from src/lib/constants.ts. -/
def usdcMint : String := "4zMMC9srt5Ri5X14GAgXhaHii3GnPAEERYPJgZJDncDU"

/-- Rent-exemption threshold constant from SendUSDC.tsx line 149. -/
def rentExempt : Nat := 2039280

/-- Leading-match test on character lists. -/
def leadsWith : List Char → List Char → Bool
  | [], _ => true
  | _ :: _, [] => false
  | p :: ps, c :: cs => (p == c) && leadsWith ps cs

/-- Contiguous-sublist test; models the JavaScript string includes
method used by the error classifier. -/
def hasSubList (pat : List Char) : List Char → Bool
  | [] => pat.isEmpty
  | c :: rest => leadsWith pat (c :: rest) || hasSubList pat rest

/-- String containment, modelling the includes method on strings. -/
def strIncludes (s pat : String) : Bool :=
  hasSubList pat.toList s.toList

/-- Model of a thrown JavaScript Error with a name and a message. -/
structure JsError where
  name : String
  message : String
deriving DecidableEq, Repr

/-- Error classifier from SendUSDC.tsx lines 204-223, applied to the
value caught by the try block; none models a thrown value that is not an
Error instance, for which the instanceof test fails. -/
def classifyError (e : Option JsError) : String :=
  match e with
  | none => "Transfer failed. Please try again."
  | some err =>
    if strIncludes err.message "insufficient lamports" || strIncludes err.message "lamports" then
      "Need more SOL to create recipient's token account. Get SOL from faucet.solana.com"
    else if strIncludes err.message "insufficient" || strIncludes err.message "Insufficient" then
      "Insufficient funds for this transaction."
    else if strIncludes err.message "rejected" || strIncludes err.message "Rejected" then
      "Transaction was rejected."
    else if strIncludes err.message "timeout" || strIncludes err.message "timed out" then
      "Transaction timed out. Please try again."
    else if strIncludes err.message "network" || strIncludes err.message "Network" then
      "Network error. Please check your connection."
    else if strIncludes err.message "TokenOwnerOffCurve" || err.name = "TokenOwnerOffCurveError" then
      "Token account error. Please try again."
    else if strIncludes err.message "not allowed" || strIncludes err.message "cancelled" then
      "Operation was cancelled. Please try again."
    else
      "Transfer failed. Please try again."

/-- The fixed table of user-facing literal strings the classifier can
produce: one per matched category, plus the generic fallback. -/
def errorMessageTable : List String :=
  [ "Need more SOL to create recipient's token account. Get SOL from faucet.solana.com"
  , "Insufficient funds for this transaction."
  , "Transaction was rejected."
  , "Transaction timed out. Please try again."
  , "Network error. Please check your connection."
  , "Token account error. Please try again."
  , "Operation was cancelled. Please try again."
  , "Transfer failed. Please try again." ]

/-- Test whether an Error matches any row of the classifier's substring
table (lines 208-222 of SendUSDC.tsx). -/
def matchesSomeCategory (err : JsError) : Bool :=
  strIncludes err.message "insufficient lamports" || strIncludes err.message "lamports" ||
  strIncludes err.message "insufficient" || strIncludes err.message "Insufficient" ||
  strIncludes err.message "rejected" || strIncludes err.message "Rejected" ||
  strIncludes err.message "timeout" || strIncludes err.message "timed out" ||
  strIncludes err.message "network" || strIncludes err.message "Network" ||
  strIncludes err.message "TokenOwnerOffCurve" || decide (err.name = "TokenOwnerOffCurveError") ||
  strIncludes err.message "not allowed" || strIncludes err.message "cancelled"

/-- Transaction state from TxStatus.tsx lines 14-18. -/
inductive TxState
  | idle
  | pending
  | success (signature : String)
  | error (errorMsg : String)
deriving DecidableEq, Repr

/-- Pending test on a transaction state. -/
def TxState.isPending : TxState → Bool
  | TxState.pending => true
  | _ => false

/-- Instructions assembled by handleSubmit; the constructor arguments are
the account arguments passed to the spl-token helpers. -/
inductive Instruction
  | createAssociatedTokenAccount (payer ata owner mint : String)
  | transfer (source dest owner : String) (amount : ℤ)
deriving DecidableEq, Repr

/-- Network calls handleSubmit can issue, in the order issued. -/
inductive NetworkCall
  | getAccount (addr : String)
  | getBalance (addr : String)
  | signAndSend
deriving DecidableEq, Repr

/-- Environment supplying the behaviour of the external wallet SDK and
RPC node during one run of handleSubmit: address validity (PublicKey
parsing), the connected smart wallet, the derived associated token
accounts, the result of each account or balance query, and the outcome
of signAndSendTransaction (an error result carries the thrown value,
none standing for a non-Error throw). -/
structure Env where
  validAddr : String → Bool
  smartWalletPubkey : Option String
  senderATA : String
  recipientATA : String
  senderAccount : Option Nat
  recipientAccountExists : Bool
  solBalance : Nat
  signResult : Except (Option JsError) String

/-- Address validator from SendUSDC.tsx lines 43-52: trim, reject the
empty string, then attempt PublicKey construction. -/
def isValidAddress (validAddr : String → Bool) (address : String) : Bool :=
  let trimmed := jsTrim address
  if trimmed = "" then false else validAddr trimmed

/-- Decimal rendering of baseUnits divided by ten to the sixth, as the
Number-to-string conversion displays it for exactly representable
values: integer part, then a fractional part with trailing zeros
removed. -/
def usdcDisplay (baseUnits : Nat) : String :=
  let whole := baseUnits / 10 ^ USDC_DECIMALS
  let frac := baseUnits % 10 ^ USDC_DECIMALS
  if frac = 0 then String.mk (Nat.toDigits 10 whole)
  else
    let ds := Nat.toDigits 10 frac
    let padded := List.replicate (USDC_DECIMALS - ds.length) '0' ++ ds
    String.mk (Nat.toDigits 10 whole) ++ "." ++
      String.mk (padded.reverse.dropWhile (· == '0')).reverse

/-- Rendering of a lamport balance as SOL with four fixed decimals, the
model of (solBalance / 1e9).toFixed(4). -/
def solDisplay (lamports : Nat) : String :=
  let r := (lamports + 50000) / 100000
  let whole := r / 10 ^ 4
  let frac := r % 10 ^ 4
  let ds := Nat.toDigits 10 frac
  String.mk (Nat.toDigits 10 whole) ++ "." ++
    String.mk (List.replicate (4 - ds.length) '0') ++ String.mk ds

/-- Observable outcome of one handleSubmit run: the final transaction
state, the two form fields after the run, the network calls issued, the
instruction list built, and the batch passed to signAndSendTransaction
together with its feeToken option (none when the signing call was never
reached). -/
structure SubmitResult where
  txState : TxState
  recipient : String
  amount : String
  networkCalls : List NetworkCall
  instructions : List Instruction
  submitted : Option (List Instruction × String)
deriving DecidableEq, Repr

/-- Tail of handleSubmit from SendUSDC.tsx lines 184-226: call
signAndSendTransaction with feeToken USDC and either record the
success (clearing both form fields) or classify the thrown error. -/
def finishSubmit (env : Env) (recipient amount : String)
    (calls : List NetworkCall) (instructions : List Instruction) : SubmitResult :=
  match env.signResult with
  | Except.ok signature =>
      { txState := TxState.success signature
        recipient := ""
        amount := ""
        networkCalls := calls ++ [NetworkCall.signAndSend]
        instructions := instructions
        submitted := some (instructions, "USDC") }
  | Except.error e =>
      { txState := TxState.error (classifyError e)
        recipient := recipient
        amount := amount
        networkCalls := calls ++ [NetworkCall.signAndSend]
        instructions := instructions
        submitted := some (instructions, "USDC") }

/-- Early-return result shared by every validation or balance failure:
the form fields are untouched and no instruction batch was submitted. -/
def failWith (recipient amount msg : String) (calls : List NetworkCall) : SubmitResult :=
  { txState := TxState.error msg
    recipient := recipient
    amount := amount
    networkCalls := calls
    instructions := []
    submitted := none }

/-- Model of handleSubmit from SendUSDC.tsx lines 55-227, as a function
of the environment and the two form fields. -/
def handleSubmit (env : Env) (recipient amount : String) : SubmitResult :=
  let trimmedRecipient := jsTrim recipient
  let trimmedAmount := jsTrim amount
  match env.smartWalletPubkey with
  | none => failWith recipient amount "Wallet not connected" []
  | some wallet =>
    if !(isValidAddress env.validAddr trimmedRecipient) then
      failWith recipient amount "Invalid recipient address" []
    else if trimmedAmount = "" then
      failWith recipient amount "Please enter an amount" []
    else
      match parseFloatQ trimmedAmount with
      | none => failWith recipient amount "Amount must be greater than 0" []
      | some amountNum =>
        if amountNum ≤ 0 then
          failWith recipient amount "Amount must be greater than 0" []
        else
          let transferAmount : ℤ := toBaseUnits amountNum
          match env.senderAccount with
          | none =>
              failWith recipient amount
                "No USDC balance found. Please fund your wallet with USDC first."
                [NetworkCall.getAccount env.senderATA]
          | some senderAmount =>
            if (senderAmount : ℤ) < transferAmount then
              failWith recipient amount
                ("Insufficient USDC balance. You have " ++ usdcDisplay senderAmount ++ " USDC")
                [NetworkCall.getAccount env.senderATA]
            else
              if !env.recipientAccountExists then
                if env.solBalance < rentExempt then
                  failWith recipient amount
                    ("Need ~0.002 SOL to create recipient's token account. You have "
                      ++ solDisplay env.solBalance
                      ++ " SOL. Get more SOL from faucet.solana.com")
                    [NetworkCall.getAccount env.senderATA,
                     NetworkCall.getAccount env.recipientATA,
                     NetworkCall.getBalance wallet]
                else
                  finishSubmit env recipient amount
                    [NetworkCall.getAccount env.senderATA,
                     NetworkCall.getAccount env.recipientATA,
                     NetworkCall.getBalance wallet]
                    [Instruction.createAssociatedTokenAccount wallet env.recipientATA
                       trimmedRecipient usdcMint,
                     Instruction.transfer env.senderATA env.recipientATA wallet transferAmount]
              else
                finishSubmit env recipient amount
                  [NetworkCall.getAccount env.senderATA,
                   NetworkCall.getAccount env.recipientATA]
                  [Instruction.transfer env.senderATA env.recipientATA wallet transferAmount]

/-- Amount validation as one predicate: the trimmed amount parses and is
strictly positive; used to state the claims about handleSubmit. -/
def amountParsesPositive (trimmedAmount : String) : Bool :=
  match parseFloatQ trimmedAmount with
  | none => false
  | some q => decide (0 < q)

/-- Cached balance snapshot from the WalletInfo component. -/
structure Balances where
  sol : Option ℚ
  usdc : Option ℚ
  loading : Bool
deriving DecidableEq, Repr

/-- Model of fetchBalances from the WalletInfo component (lines 36-68):
without a wallet it returns early leaving the snapshot unchanged; a
failed SOL balance query reaches the outer catch and clears both values
to none; otherwise the USDC query failure is caught internally and shows
as a zero balance. -/
def fetchBalances (smartWallet : Option String)
    (solRes : Except Unit Nat) (usdcRes : Except Unit Nat)
    (prev : Balances) : Balances :=
  match smartWallet with
  | none => prev
  | some _ =>
    match solRes with
    | Except.error _ => { sol := none, usdc := none, loading := false }
    | Except.ok lamports =>
        let usdcAmount : ℚ :=
          match usdcRes with
          | Except.ok tokenAmount => (tokenAmount : ℚ) / 10 ^ USDC_DECIMALS
          | Except.error _ => 0
        { sol := some ((lamports : ℚ) / 1000000000)
          usdc := some usdcAmount
          loading := false }

/-- Truncation utility from src/lib/constants.ts lines 49-52, with the
JavaScript string modelled as its character list. -/
def truncateAddress (address : List Char) (chars : Nat := 4) : List Char :=
  if address.length ≤ chars * 2 + 3 then address
  else address.take chars ++ ('.' :: '.' :: '.' :: []) ++ address.drop (address.length - chars)

/-- View state of the SendUSDC component: the two form fields, the
transaction state, and the number of submissions currently awaiting the
asynchronous part of handleSubmit. -/
structure UiState where
  recipient : String
  amount : String
  tx : TxState
  inFlight : Nat
deriving DecidableEq, Repr

/-- The disabled condition of the submit button, SendUSDC.tsx lines
323-328: pending status, an empty trimmed field, or an invalid address
disables submission. -/
def submitDisabled (validAddr : String → Bool) (s : UiState) : Bool :=
  s.tx.isPending || decide (jsTrim s.recipient = "") || decide (jsTrim s.amount = "") ||
    !(isValidAddress validAddr (jsTrim s.recipient))

/-- The synchronous validation prefix of handleSubmit as one predicate:
wallet connected, valid recipient, non-empty amount parsing positive. -/
def validationPasses (wallet : Option String) (validAddr : String → Bool)
    (recipient amount : String) : Bool :=
  wallet.isSome && isValidAddress validAddr (jsTrim recipient) &&
    !(decide (jsTrim amount = "")) && amountParsesPositive (jsTrim amount)

/-- Event step relation of the SendUSDC component.  Editing changes a
field; a submit event can fire only while the button is enabled and
either fails validation synchronously (setting an error, starting no
flight) or sets pending and starts the asynchronous flight; a flight
resolves to success (clearing the fields) or to an error; dismissal is
available only from the non-pending, non-idle states in which TxStatus
renders its dismiss button. -/
inductive Step (wallet : Option String) (validAddr : String → Bool) :
    UiState → UiState → Prop
  | editRecipient (s : UiState) (v : String) :
      Step wallet validAddr s { s with recipient := v }
  | editAmount (s : UiState) (v : String) :
      Step wallet validAddr s { s with amount := v }
  | submitInvalid (s : UiState) (msg : String)
      (henabled : submitDisabled validAddr s = false)
      (hfail : validationPasses wallet validAddr s.recipient s.amount = false) :
      Step wallet validAddr s { s with tx := TxState.error msg }
  | submitStart (s : UiState)
      (henabled : submitDisabled validAddr s = false)
      (hpass : validationPasses wallet validAddr s.recipient s.amount = true) :
      Step wallet validAddr s { s with tx := TxState.pending, inFlight := s.inFlight + 1 }
  | resolveSuccess (s : UiState) (sig : String) (h : 0 < s.inFlight) :
      Step wallet validAddr s
        { recipient := "", amount := "", tx := TxState.success sig, inFlight := s.inFlight - 1 }
  | resolveError (s : UiState) (msg : String) (h : 0 < s.inFlight) :
      Step wallet validAddr s { s with tx := TxState.error msg, inFlight := s.inFlight - 1 }
  | dismiss (s : UiState) (h : s.tx.isPending = false) (h2 : s.tx ≠ TxState.idle) :
      Step wallet validAddr s { s with tx := TxState.idle }

/-- Initial state of the SendUSDC component: empty fields, idle status,
no flight. -/
def initState : UiState :=
  { recipient := "", amount := "", tx := TxState.idle, inFlight := 0 }

/-- States reachable from the initial state by component events. -/
def Reachable (wallet : Option String) (validAddr : String → Bool) (s : UiState) : Prop :=
  Relation.ReflTransGen (Step wallet validAddr) initState s

/-- Environment with no connected wallet, used to instantiate claims. -/
def envNoWallet : Env :=
  { validAddr := fun _ => true
    smartWalletPubkey := none
    senderATA := "SENDERATA"
    recipientATA := "RECIPIENTATA"
    senderAccount := some 0
    recipientAccountExists := true
    solBalance := 0
    signResult := Except.ok "SIG" }

/-- Environment of a fully funded run, used to instantiate claims. -/
def envBase : Env :=
  { validAddr := fun _ => true
    smartWalletPubkey := some "WALLET"
    senderATA := "SENDERATA"
    recipientATA := "RECIPIENTATA"
    senderAccount := some 5000000
    recipientAccountExists := true
    solBalance := 10000000
    signResult := Except.ok "SIG" }

theorem roundDiv_eq_floor (n : ℤ) (d : ℕ) (hd : 0 < d) :
    roundDiv n d = ⌊(n : ℚ) / (d : ℚ) + 1 / 2⌋ := by
  rw [roundDiv, Int.fdiv_eq_ediv _ (by positivity)]
  have hd0 : (d : ℚ) ≠ 0 := by positivity
  have h : (n : ℚ) / (d : ℚ) + 1 / 2 = ((2 * n + d : ℤ) : ℚ) / ((2 * d : ℕ) : ℚ) := by
    push_cast
    field_simp
    ring
  rw [h, Rat.floor_intCast_div_natCast]
  push_cast
  ring_nf

theorem toBaseUnits_eq_floor (q : ℚ) :
    toBaseUnits q = ⌊q * 10 ^ USDC_DECIMALS + 1 / 2⌋ := by
  have hd : 0 < q.den := q.pos
  rw [toBaseUnits, roundDiv_eq_floor _ _ hd]
  have hden : (q.den : ℚ) ≠ 0 := by positivity
  have h : ((q.num * 10 ^ USDC_DECIMALS : ℤ) : ℚ) / (q.den : ℚ) = q * 10 ^ USDC_DECIMALS := by
    push_cast
    rw [mul_div_right_comm, Rat.num_div_den]
  rw [h]

theorem isPending_false_iff (t : TxState) :
    t.isPending = false ↔ t ≠ TxState.pending := by
  cases t <;> simp [TxState.isPending]

/-- Claim C1: for every amount accepted by validation, the base-unit
conversion multiplies the parsed decimal amount by ten to the sixth and
rounds to the nearest integer (halves upward), carried in an
arbitrary-precision integer; the input 0.1 yields exactly 100000 base
units and 1.0000005 yields exactly 1000001 (nearest rounding, not
truncation). -/
theorem c1_base_unit_conversion :
    (∀ q : ℚ, ((toBaseUnits q : ℚ) - 1 / 2 ≤ q * 10 ^ USDC_DECIMALS ∧
               q * 10 ^ USDC_DECIMALS < (toBaseUnits q : ℚ) + 1 / 2)) ∧
    (parseFloatQ "0.1").map toBaseUnits = some 100000 ∧
    (parseFloatQ "1.0000005").map toBaseUnits = some 1000001 := by
  refine ⟨fun q => ?_, by decide, by decide⟩
  have h := toBaseUnits_eq_floor q
  constructor
  · have hle := Int.floor_le (q * 10 ^ USDC_DECIMALS + 1 / 2)
    rw [← h] at hle
    linarith
  · have hlt := Int.lt_floor_add_one (q * 10 ^ USDC_DECIMALS + 1 / 2)
    rw [← h] at hlt
    linarith

/-- Claim C7: every error thrown inside the submission try block is
mapped by the classifier to exactly one literal string from the fixed
table of categories, and any error matching no category, or any thrown
value that is not an Error instance, yields the generic transfer-failed
string; the raw error detail is never part of the displayed message. -/
theorem c7_error_classification :
    (∀ e : Option JsError, classifyError e ∈ errorMessageTable) ∧
    (∀ err : JsError, matchesSomeCategory err = false →
        classifyError (some err) = "Transfer failed. Please try again.") ∧
    classifyError none = "Transfer failed. Please try again." := by
  refine ⟨?_, ?_, rfl⟩
  · intro e
    match e with
    | none => simp [classifyError, errorMessageTable]
    | some err =>
      rw [classifyError]
      split_ifs <;> simp [errorMessageTable]
  · intro err hmatch
    simp only [matchesSomeCategory, Bool.or_eq_false_iff,
      decide_eq_false_iff_not] at hmatch
    simp [classifyError, hmatch]

/-- Witness for C7: a concrete Error matching no category is mapped to
the generic transfer-failed string. -/
theorem c7_error_classification_witness :
    matchesSomeCategory { name := "Error", message := "boom" } = false ∧
    classifyError (some { name := "Error", message := "boom" }) =
      "Transfer failed. Please try again." :=
  ⟨by decide, c7_error_classification.2.1 { name := "Error", message := "boom" } (by decide)⟩

/-- Claim C8: whenever the balance fetch fails, both cached balance
values are cleared to none rather than keeping the previous snapshot,
and loading is set to false. -/
theorem c8_balance_refresh_failure (w : String) (usdcRes : Except Unit Nat) (prev : Balances) :
    fetchBalances (some w) (Except.error ()) usdcRes prev =
      { sol := none, usdc := none, loading := false } := rfl

/-- Claim C10: truncateAddress returns the address unchanged when its
length is at most two times chars plus three, and otherwise returns a
string of exactly that length made of the first chars characters, three
dots, and the last chars characters. -/
theorem c10_truncate_address (address : List Char) (chars : Nat) (hpos : 0 < chars) :
    (address.length ≤ chars * 2 + 3 → truncateAddress address chars = address) ∧
    (chars * 2 + 3 < address.length →
      truncateAddress address chars =
        address.take chars ++ ('.' :: '.' :: '.' :: []) ++
          address.drop (address.length - chars) ∧
      (truncateAddress address chars).length = chars * 2 + 3) := by
  constructor
  · intro h
    simp [truncateAddress, h]
  · intro h
    have hn : ¬ address.length ≤ chars * 2 + 3 := not_le.mpr h
    refine ⟨by simp [truncateAddress, hn], ?_⟩
    simp only [truncateAddress, hn, if_false, List.length_append, List.length_take,
      List.length_drop, List.length_cons, List.length_nil]
    omega

/-- Witness for C10: a twelve-character address with chars four
truncates to the first four characters, three dots, and the last four,
with total length eleven. -/
theorem c10_truncate_address_witness :
    truncateAddress "ABCDEFGHIJKL".toList 4 = "ABCD...IJKL".toList ∧
    (truncateAddress "ABCDEFGHIJKL".toList 4).length = 4 * 2 + 3 := by
  have h := (c10_truncate_address "ABCDEFGHIJKL".toList 4 (by decide)).2 (by decide)
  exact ⟨by decide, h.2⟩

/-- Claim C2: handleSubmit validates in this order: signer identity
present, recipient parses as a valid address, amount non-empty and
parsing to a positive number; whenever any of them fails, an error
state is set and the handler returns before any network call and before
any instruction is constructed, the first failing check determining the
message. -/
theorem c2_validation_fail_fast (env : Env) (recipient amount : String)
    (h : env.smartWalletPubkey = none ∨
         isValidAddress env.validAddr (jsTrim recipient) = false ∨
         jsTrim amount = "" ∨
         amountParsesPositive (jsTrim amount) = false) :
    ((handleSubmit env recipient amount).networkCalls = [] ∧
     (handleSubmit env recipient amount).instructions = [] ∧
     (handleSubmit env recipient amount).submitted = none ∧
     ∃ msg, (handleSubmit env recipient amount).txState = TxState.error msg) ∧
    (env.smartWalletPubkey = none →
      (handleSubmit env recipient amount).txState = TxState.error "Wallet not connected") ∧
    (env.smartWalletPubkey ≠ none →
      isValidAddress env.validAddr (jsTrim recipient) = false →
      (handleSubmit env recipient amount).txState = TxState.error "Invalid recipient address") ∧
    (env.smartWalletPubkey ≠ none →
      isValidAddress env.validAddr (jsTrim recipient) = true →
      jsTrim amount = "" →
      (handleSubmit env recipient amount).txState = TxState.error "Please enter an amount") ∧
    (env.smartWalletPubkey ≠ none →
      isValidAddress env.validAddr (jsTrim recipient) = true →
      jsTrim amount ≠ "" →
      amountParsesPositive (jsTrim amount) = false →
      (handleSubmit env recipient amount).txState =
        TxState.error "Amount must be greater than 0") := by
  rcases hw : env.smartWalletPubkey with _ | w
  · refine ⟨?_, fun _ => ?_, fun hne => absurd rfl hne, fun hne => absurd rfl hne,
      fun hne => absurd rfl hne⟩ <;>
      simp [handleSubmit, hw, failWith]
  · have hfail : isValidAddress env.validAddr (jsTrim recipient) = false ∨
        jsTrim amount = "" ∨ amountParsesPositive (jsTrim amount) = false := by
      rcases h with h | h
      · rw [hw] at h
        exact absurd h (by simp)
      · exact h
    refine ⟨?_, fun hnone => by simp at hnone, ?_, ?_, ?_⟩
    · rcases hfail with hv | hmt | hp
      · simp [handleSubmit, hw, hv, failWith]
      · have hv2 := isValidAddress env.validAddr (jsTrim recipient)
        by_cases hv : isValidAddress env.validAddr (jsTrim recipient) = true
        · simp [handleSubmit, hw, hv, hmt, failWith]
        · simp only [Bool.not_eq_true] at hv
          simp [handleSubmit, hw, hv, failWith]
      · by_cases hv : isValidAddress env.validAddr (jsTrim recipient) = true
        · by_cases hmt : jsTrim amount = ""
          · simp [handleSubmit, hw, hv, hmt, failWith]
          · rcases hq : parseFloatQ (jsTrim amount) with _ | q
            · simp [handleSubmit, hw, hv, hmt, hq, failWith]
            · have hle : q ≤ 0 := by
                rw [amountParsesPositive, hq] at hp
                simpa using hp
              simp [handleSubmit, hw, hv, hmt, hq, hle, failWith]
        · simp only [Bool.not_eq_true] at hv
          simp [handleSubmit, hw, hv, failWith]
    · intro _ hv
      simp [handleSubmit, hw, hv, failWith]
    · intro _ hv hmt
      simp [handleSubmit, hw, hv, hmt, failWith]
    · intro _ hv hmt hp
      rcases hq : parseFloatQ (jsTrim amount) with _ | q
      · simp [handleSubmit, hw, hv, hmt, hq, failWith]
      · have hle : q ≤ 0 := by
          rw [amountParsesPositive, hq] at hp
          simpa using hp
        simp [handleSubmit, hw, hv, hmt, hq, hle, failWith]

/-- Witness for C2: without a connected wallet the submission fails
with the wallet-not-connected message, no network call, no batch. -/
theorem c2_validation_fail_fast_witness :
    (handleSubmit envNoWallet "addr" "1").networkCalls = [] ∧
    (handleSubmit envNoWallet "addr" "1").submitted = none ∧
    (handleSubmit envNoWallet "addr" "1").txState = TxState.error "Wallet not connected" := by
  have h := c2_validation_fail_fast envNoWallet "addr" "1" (Or.inl rfl)
  exact ⟨h.1.1, h.1.2.2.1, h.2.1 rfl⟩

/-- Claim C3: once validation passes, a queried sender balance below
the requested amount ends the flow in an error message containing the
rendered current balance with nothing submitted, and a failed
token-account query ends it in the no-balance-found message with
nothing submitted. -/
theorem c3_balance_guard (env : Env) (recipient amount w : String) (q : ℚ)
    (hw : env.smartWalletPubkey = some w)
    (hv : isValidAddress env.validAddr (jsTrim recipient) = true)
    (hne : jsTrim amount ≠ "")
    (hq : parseFloatQ (jsTrim amount) = some q)
    (hpos : 0 < q) :
    (∀ bal : Nat, env.senderAccount = some bal → (bal : ℤ) < toBaseUnits q →
      (handleSubmit env recipient amount).txState =
        TxState.error ("Insufficient USDC balance. You have " ++ usdcDisplay bal ++ " USDC") ∧
      (handleSubmit env recipient amount).submitted = none) ∧
    (env.senderAccount = none →
      (handleSubmit env recipient amount).txState =
        TxState.error "No USDC balance found. Please fund your wallet with USDC first." ∧
      (handleSubmit env recipient amount).submitted = none) := by
  constructor
  · intro bal hbal hlt
    constructor <;>
      simp [handleSubmit, hw, hv, hne, hq, hpos.not_le, hbal, hlt, failWith]
  · intro hbal
    constructor <;>
      simp [handleSubmit, hw, hv, hne, hq, hpos.not_le, hbal, failWith]

/-- Witness for C3: sending one token with a balance of half a token
fails with the rendered balance 0.5 in the message and no submission. -/
theorem c3_balance_guard_witness :
    (handleSubmit { envBase with senderAccount := some 500000 } "addr" "1").txState =
      TxState.error "Insufficient USDC balance. You have 0.5 USDC" ∧
    (handleSubmit { envBase with senderAccount := some 500000 } "addr" "1").submitted = none := by
  have h := (c3_balance_guard { envBase with senderAccount := some 500000 } "addr" "1"
      "WALLET" 1 rfl (by decide) (by decide) (by decide) (by decide)).1 500000 rfl (by decide)
  exact ⟨by rw [h.1]; decide, h.2⟩

/-- Claim C4: once validation passes and the balance check succeeds, an
absent recipient token account together with a sender SOL balance below
the literal rent threshold 2039280 lamports ends the flow in the
funding-prompt error, with nothing submitted. -/
theorem c4_rent_guard (env : Env) (recipient amount w : String) (q : ℚ) (bal : Nat)
    (hw : env.smartWalletPubkey = some w)
    (hv : isValidAddress env.validAddr (jsTrim recipient) = true)
    (hne : jsTrim amount ≠ "")
    (hq : parseFloatQ (jsTrim amount) = some q)
    (hpos : 0 < q)
    (hbal : env.senderAccount = some bal)
    (hge : toBaseUnits q ≤ (bal : ℤ))
    (hata : env.recipientAccountExists = false)
    (hsol : env.solBalance < 2039280) :
    (handleSubmit env recipient amount).txState =
      TxState.error ("Need ~0.002 SOL to create recipient's token account. You have "
        ++ solDisplay env.solBalance ++ " SOL. Get more SOL from faucet.solana.com") ∧
    (handleSubmit env recipient amount).submitted = none := by
  constructor <;>
    simp [handleSubmit, hw, hv, hne, hq, hpos.not_le, hbal, hge.not_lt, hata,
      rentExempt, hsol, failWith]

/-- Witness for C4: an absent recipient account and a one-million
lamport balance produce the funding prompt showing 0.0010 SOL. -/
theorem c4_rent_guard_witness :
    (handleSubmit { envBase with recipientAccountExists := false, solBalance := 1000000 }
        "addr" "1").txState =
      TxState.error ("Need ~0.002 SOL to create recipient's token account. You have "
        ++ "0.0010" ++ " SOL. Get more SOL from faucet.solana.com") ∧
    (handleSubmit { envBase with recipientAccountExists := false, solBalance := 1000000 }
        "addr" "1").submitted = none := by
  have h := c4_rent_guard
      { envBase with recipientAccountExists := false, solBalance := 1000000 }
      "addr" "1" "WALLET" 1 5000000 rfl (by decide) (by decide) (by decide) (by decide)
      rfl (by decide) rfl (by decide)
  exact ⟨by rw [h.1]; decide, h.2⟩

/-- Claim C5: when the flow reaches the signing call, the submitted
batch is exactly the account-creation instruction followed by the
transfer when the recipient account was absent and the rent check
passed, and exactly the transfer alone otherwise, and it is submitted
through signAndSendTransaction with feeToken USDC. -/
theorem c5_instruction_batch (env : Env) (recipient amount w : String) (q : ℚ) (bal : Nat)
    (hw : env.smartWalletPubkey = some w)
    (hv : isValidAddress env.validAddr (jsTrim recipient) = true)
    (hne : jsTrim amount ≠ "")
    (hq : parseFloatQ (jsTrim amount) = some q)
    (hpos : 0 < q)
    (hbal : env.senderAccount = some bal)
    (hge : toBaseUnits q ≤ (bal : ℤ)) :
    (env.recipientAccountExists = false → rentExempt ≤ env.solBalance →
      (handleSubmit env recipient amount).submitted =
        some ([Instruction.createAssociatedTokenAccount w env.recipientATA
                 (jsTrim recipient) usdcMint,
               Instruction.transfer env.senderATA env.recipientATA w (toBaseUnits q)],
              "USDC")) ∧
    (env.recipientAccountExists = true →
      (handleSubmit env recipient amount).submitted =
        some ([Instruction.transfer env.senderATA env.recipientATA w (toBaseUnits q)],
              "USDC")) := by
  constructor
  · intro hata hsol
    rcases hsig : env.signResult with e | sig <;>
      simp [handleSubmit, hw, hv, hne, hq, hpos.not_le, hbal, hge.not_lt, hata,
        hsol.not_lt, finishSubmit, hsig]
  · intro hata
    rcases hsig : env.signResult with e | sig <;>
      simp [handleSubmit, hw, hv, hne, hq, hpos.not_le, hbal, hge.not_lt, hata,
        finishSubmit, hsig]

/-- Witness for C5: with the recipient account present the batch is the
single transfer of one million base units with feeToken USDC. -/
theorem c5_instruction_batch_witness :
    (handleSubmit envBase "addr" "1").submitted =
      some ([Instruction.transfer "SENDERATA" "RECIPIENTATA" "WALLET" 1000000], "USDC") := by
  have h := (c5_instruction_batch envBase "addr" "1" "WALLET" 1 5000000 rfl (by decide)
      (by decide) (by decide) (by decide) rfl (by decide)).2 rfl
  rw [h]; decide

/-- Claim C6: whenever signAndSendTransaction resolves with a
signature, handleSubmit sets the transaction state to success carrying
exactly that signature and clears both input fields. -/
theorem c6_success_state (env : Env) (recipient amount w sig : String) (q : ℚ) (bal : Nat)
    (hw : env.smartWalletPubkey = some w)
    (hv : isValidAddress env.validAddr (jsTrim recipient) = true)
    (hne : jsTrim amount ≠ "")
    (hq : parseFloatQ (jsTrim amount) = some q)
    (hpos : 0 < q)
    (hbal : env.senderAccount = some bal)
    (hge : toBaseUnits q ≤ (bal : ℤ))
    (hok : env.recipientAccountExists = true ∨
           (env.recipientAccountExists = false ∧ rentExempt ≤ env.solBalance))
    (hsig : env.signResult = Except.ok sig) :
    (handleSubmit env recipient amount).txState = TxState.success sig ∧
    (handleSubmit env recipient amount).recipient = "" ∧
    (handleSubmit env recipient amount).amount = "" := by
  rcases hok with hata | ⟨hata, hsol⟩
  · refine ⟨?_, ?_, ?_⟩ <;>
      simp [handleSubmit, hw, hv, hne, hq, hpos.not_le, hbal, hge.not_lt, hata,
        finishSubmit, hsig]
  · refine ⟨?_, ?_, ?_⟩ <;>
      simp [handleSubmit, hw, hv, hne, hq, hpos.not_le, hbal, hge.not_lt, hata,
        hsol.not_lt, finishSubmit, hsig]

/-- Witness for C6: a resolved signature yields the success state with
that signature and cleared fields. -/
theorem c6_success_state_witness :
    (handleSubmit envBase "addr" "1").txState = TxState.success "SIG" ∧
    (handleSubmit envBase "addr" "1").recipient = "" ∧
    (handleSubmit envBase "addr" "1").amount = "" :=
  c6_success_state envBase "addr" "1" "WALLET" "SIG" 1 5000000 rfl (by decide)
    (by decide) (by decide) (by decide) rfl (by decide) (Or.inl rfl) rfl

/-- Claim C9: in every reachable state of the transfer form at most one
submission is in flight; while the status is pending the submit control
is disabled, so a flight can only start once the state has left
pending. -/
theorem c9_single_submission (wallet : Option String) (validAddr : String → Bool)
    (s : UiState) (h : Reachable wallet validAddr s) :
    s.inFlight ≤ 1 ∧ (s.inFlight = 1 → s.tx = TxState.pending) ∧
    (s.tx = TxState.pending → submitDisabled validAddr s = true) := by
  have main : s.inFlight ≤ 1 ∧ (s.inFlight = 1 → s.tx = TxState.pending) := by
    induction h with
    | refl => exact ⟨by decide, by intro h1; simp [initState] at h1⟩
    | @tail b c hsteps hstep ih =>
      have hle := ih.1
      cases hstep with
      | editRecipient v => exact ih
      | editAmount v => exact ih
      | submitInvalid msg hen hfail =>
        refine ⟨ih.1, fun h1 => ?_⟩
        have h1b : b.inFlight = 1 := h1
        have hnp : b.tx ≠ TxState.pending := by
          have hp2 : b.tx.isPending = false := by
            simp only [submitDisabled, Bool.or_eq_false_iff] at hen
            exact hen.1.1.1
          exact (isPending_false_iff b.tx).mp hp2
        exact absurd (ih.2 h1b) hnp
      | submitStart hen hpass =>
        have hnp : b.tx ≠ TxState.pending := by
          have hp2 : b.tx.isPending = false := by
            simp only [submitDisabled, Bool.or_eq_false_iff] at hen
            exact hen.1.1.1
          exact (isPending_false_iff b.tx).mp hp2
        have h0 : b.inFlight = 0 := by
          rcases Nat.eq_or_lt_of_le hle with h1 | h1
          · exact absurd (ih.2 h1) hnp
          · omega
        refine ⟨?_, fun _ => rfl⟩
        show b.inFlight + 1 ≤ 1
        omega
      | resolveSuccess sig hpos =>
        refine ⟨?_, fun h1 => ?_⟩
        · show b.inFlight - 1 ≤ 1
          omega
        · have h1b : b.inFlight - 1 = 1 := h1
          exact absurd h1b (by omega)
      | resolveError msg hpos =>
        refine ⟨?_, fun h1 => ?_⟩
        · show b.inFlight - 1 ≤ 1
          omega
        · have h1b : b.inFlight - 1 = 1 := h1
          exact absurd h1b (by omega)
      | dismiss h1 h2 =>
        refine ⟨ih.1, fun hf => ?_⟩
        have hfb : b.inFlight = 1 := hf
        have hnp : b.tx ≠ TxState.pending := (isPending_false_iff b.tx).mp h1
        exact absurd (ih.2 hfb) hnp
  refine ⟨main.1, main.2, fun hp => ?_⟩
  simp [submitDisabled, hp, TxState.isPending]

/-- Witness for C9: the initial state is reachable and satisfies the
invariant. -/
theorem c9_single_submission_witness :
    initState.inFlight ≤ 1 ∧
    (initState.inFlight = 1 → initState.tx = TxState.pending) ∧
    (initState.tx = TxState.pending →
      submitDisabled (fun _ => true) initState = true) :=
  c9_single_submission (some "WALLET") (fun _ => true) initState
    Relation.ReflTransGen.refl

end Lazorkit
